import Mathlib

/-!
Verification of the OpenClawPyLite browser-automation agent.

The development shallowly embeds `src/agent.py` (the action-interpretation
loop of `Agent.analyze_and_act`) and `src/browser.py` (the `BrowserManager`
operations).  Python's decoded JSON values are modelled by the inductive
`Json`; Python exceptions are modelled explicitly (as `Option`/error
constructors); the external collaborators (the browser library, the model
gateway, `json.loads`) are modelled by explicit oracle parameters recording
their outcomes.  Browser side effects are recorded as a trace of
`BrowserOp` values in the order the Python code awaits them.
-/

namespace OpenClaw

/-- A decoded Python JSON value, as produced by `json.loads`.
Numbers are modelled as integers (the actions of this program carry
integer coordinates); objects are association lists with the keys
appearing once. -/
inductive Json where
  | null
  | bool (b : Bool)
  | num (n : Int)
  | str (s : String)
  | arr (elems : List Json)
  | obj (fields : List (String × Json))

/-- Python truthiness (`if x:`) of a decoded JSON value:
`None`, `False`, `0`, `""`, `[]` and the empty dict are falsy. -/
def truthy : Json → Bool
  | .null => false
  | .bool b => b
  | .num n => !(n == 0)
  | .str s => !(s == "")
  | .arr xs => !xs.isEmpty
  | .obj fs => !fs.isEmpty

/-- Python `len(x)` on a decoded JSON value: defined for strings, lists and
dicts; `none` models the `TypeError` raised on the other values. -/
def pyLen : Json → Option Nat
  | .str s => some s.length
  | .arr xs => some xs.length
  | .obj fs => some fs.length
  | _ => none

/-- Python subscription `x[i]` for a natural index: list element, or the
one-character string of a string; `none` models the `TypeError` / `KeyError`
/ `IndexError` raised otherwise. -/
def pyIndex : Json → Nat → Option Json
  | .arr xs, i => xs[i]?
  | .str s, i => (s.data[i]?).map (fun c => .str (String.mk [c]))
  | _, _ => none

/-- Python `dict.get(key)` on the fields of a JSON object
(`none` when the key is absent). -/
def lookupField : List (String × Json) → String → Option Json
  | [], _ => none
  | (k, v) :: rest, key => if k = key then some v else lookupField rest key

mutual

/-- Python `repr` of a decoded JSON value (as used by `str` on non-string
values, e.g. when a list is interpolated into an f-string). -/
def pyRepr : Json → String
  | .null => "None"
  | .bool true => "True"
  | .bool false => "False"
  | .num n => toString n
  | .str s => "\x27" ++ s ++ "\x27"
  | .arr xs => "[" ++ pyReprList xs ++ "]"
  | .obj fs => "\x7b" ++ pyReprFields fs ++ "\x7d"

/-- Comma-separated `repr` of list elements. -/
def pyReprList : List Json → String
  | [] => ""
  | [x] => pyRepr x
  | x :: y :: rest => pyRepr x ++ ", " ++ pyReprList (y :: rest)

/-- Comma-separated `repr` of dict items. -/
def pyReprFields : List (String × Json) → String
  | [] => ""
  | [(k, v)] => "\x27" ++ k ++ "\x27: " ++ pyRepr v
  | (k, v) :: y :: rest => "\x27" ++ k ++ "\x27: " ++ pyRepr v ++ ", " ++ pyReprFields (y :: rest)

end

/-- Python `str` of a decoded JSON value: strings unchanged, otherwise `repr`. -/
def pyStr : Json → String
  | .str s => s
  | j => pyRepr j

/-- Python `str` of an optional value (`str(None) = "None"`), as used for
f-string interpolation of `dict.get` results. -/
def pyStrOpt : Option Json → String
  | none => "None"
  | some j => pyStr j

/-- Escape of one character inside a JSON string literal, following
`json.dumps`. -/
def escJsonChar (c : Char) : String :=
  if c = '\\' then "\\\\"
  else if c = '"' then "\\\""
  else if c = '\n' then "\\n"
  else String.mk [c]

/-- Escape of a string for `json.dumps`. -/
def jsonEscape (s : String) : String :=
  s.data.foldl (fun acc c => acc ++ escJsonChar c) ""

mutual

/-- Python `json.dumps` of a decoded JSON value (default separators). -/
def Json.dumps : Json → String
  | .null => "null"
  | .bool true => "true"
  | .bool false => "false"
  | .num n => toString n
  | .str s => "\"" ++ jsonEscape s ++ "\""
  | .arr xs => "[" ++ dumpsList xs ++ "]"
  | .obj fs => "\x7b" ++ dumpsFields fs ++ "\x7d"

/-- Comma-separated `json.dumps` of list elements. -/
def dumpsList : List Json → String
  | [] => ""
  | [x] => Json.dumps x
  | x :: y :: rest => Json.dumps x ++ ", " ++ dumpsList (y :: rest)

/-- Comma-separated `json.dumps` of dict items. -/
def dumpsFields : List (String × Json) → String
  | [] => ""
  | [(k, v)] => "\"" ++ jsonEscape k ++ "\": " ++ Json.dumps v
  | (k, v) :: y :: rest => "\"" ++ jsonEscape k ++ "\": " ++ Json.dumps v ++ ", " ++ dumpsFields (y :: rest)

end

/-- Extracts the underlying strings of a list of JSON values when all of
them are strings; `none` models the `TypeError` that `str.join` raises on
a non-string item. -/
def getStrs : List Json → Option (List String)
  | [] => some []
  | .str s :: rest => (getStrs rest).map (fun ss => s :: ss)
  | _ :: _ => none

/-- Python `"\n".join(xs)` on the accumulated result messages: succeeds with
the newline-joined string when every item is a string, otherwise raises
(`.error` carries the exception text). -/
def pyJoin (xs : List Json) : Except String String :=
  match getStrs xs with
  | some ss => .ok (String.intercalate "\n" ss)
  | none => .error "TypeError: sequence item: expected str instance"

/-- One browser operation awaited by the action loop, with the argument
values exactly as the Python code passes them (decoded JSON values,
since the code performs no coercion). -/
inductive BrowserOp where
  | click (x y : Json)
  | type_text (text : Json)
  | press_key (key : Json)
  | scroll (direction : Json)
  | navigate (url : Json)
  | get_text_content

/-- The behaviour of the browser collaborator during one invocation:
for each operation, either the string it returns, or (`.error`) the text of
the exception it raises. -/
abbrev BrowserOracle := BrowserOp → Except String String

/-- The mutable state of the `for action_data in actions_data` loop:
the trace of browser operations dispatched so far, the accumulated
`total_result_msg` list (items are JSON values because the `answer` branch
appends the raw `text` value), and the `is_done` flag. -/
structure ExecAcc where
  ops : List BrowserOp
  msgs : List Json
  is_done : Bool

/-- Outcome of running (part of) the action loop: the batch was exhausted,
the loop halted via `break`, or a Python exception escaped (carrying the
state at the moment it was raised, including the operations already
dispatched). -/
inductive ExecOut where
  | finished (acc : ExecAcc)
  | halted (acc : ExecAcc)
  | exc (acc : ExecAcc) (e : String)

/-- The accumulator inside any loop outcome. -/
def ExecOut.acc : ExecOut → ExecAcc
  | .finished a => a
  | .halted a => a
  | .exc a _ => a

/-- Awaiting one browser method: the operation is dispatched (recorded in
the trace) and the oracle decides whether it returns a string or raises. -/
def callBrowser (oracle : BrowserOracle) (acc : ExecAcc) (op : BrowserOp) :
    ExecAcc × Except String String :=
  ({ acc with ops := acc.ops ++ [op] }, oracle op)

/-- One iteration of the action loop of `Agent.analyze_and_act`
(src/agent.py lines 124-180), faithful to the `if`/`elif` dispatch on the
`action` tag, including the silent skips, the invalid-coordinates error
line, the forced Enter press after `type`, and the `break` on the terminal
`answer` / `done` actions. -/
def execOne (oracle : BrowserOracle) (acc : ExecAcc) (action_data : Json) : ExecOut :=
  match action_data with
  | .obj fs =>
    let action := lookupField fs "action"
    let reasoning := (lookupField fs "reasoning").getD (.str "")
    let step_msg := "Action: " ++ pyStrOpt action ++ ". " ++ pyStr reasoning
    match action with
    | some (.str "click") =>
      match lookupField fs "coordinates" with
      | some coords =>
        if truthy coords then
          match pyLen coords with
          | none => .exc acc "TypeError: object has no len()"
          | some n =>
            if n == 2 then
              match pyIndex coords 0, pyIndex coords 1 with
              | some x, some y =>
                match callBrowser oracle acc (.click x y) with
                | (acc2, .error e) => .exc acc2 e
                | (acc2, .ok _) =>
                  .finished { acc2 with msgs := acc2.msgs ++
                    [.str (step_msg ++ " Clicked at " ++ pyStr coords ++ ".")] }
              | _, _ => .exc acc "KeyError: 0"
            else
              .finished { acc with msgs := acc.msgs ++
                [.str "Error: Invalid coordinates for click."] }
        else
          .finished { acc with msgs := acc.msgs ++
            [.str "Error: Invalid coordinates for click."] }
      | none =>
        .finished { acc with msgs := acc.msgs ++
          [.str "Error: Invalid coordinates for click."] }
    | some (.str "type") =>
      match lookupField fs "text" with
      | some t =>
        if truthy t then
          match callBrowser oracle acc (.type_text t) with
          | (acc2, .error e) => .exc acc2 e
          | (acc2, .ok _) =>
            match callBrowser oracle acc2 (.press_key (.str "Enter")) with
            | (acc3, .error e) => .exc acc3 e
            | (acc3, .ok _) =>
              .finished { acc3 with msgs := acc3.msgs ++
                [.str (step_msg ++ " Typed \x27" ++ pyStr t ++ "\x27." ++
                  " (Auto-pressed Enter to submit).")] }
        else
          .finished { acc with msgs := acc.msgs ++ [.str step_msg] }
      | none => .finished { acc with msgs := acc.msgs ++ [.str step_msg] }
    | some (.str "key") =>
      match lookupField fs "key" with
      | some k =>
        if truthy k then
          match callBrowser oracle acc (.press_key k) with
          | (acc2, .error e) => .exc acc2 e
          | (acc2, .ok _) =>
            .finished { acc2 with msgs := acc2.msgs ++
              [.str (step_msg ++ " Pressed \x27" ++ pyStr k ++ "\x27.")] }
        else
          .finished { acc with msgs := acc.msgs ++ [.str step_msg] }
      | none => .finished { acc with msgs := acc.msgs ++ [.str step_msg] }
    | some (.str "scroll") =>
      let direction := (lookupField fs "direction").getD (.str "down")
      match callBrowser oracle acc (.scroll direction) with
      | (acc2, .error e) => .exc acc2 e
      | (acc2, .ok _) =>
        .finished { acc2 with msgs := acc2.msgs ++
          [.str (step_msg ++ " Scrolled " ++ pyStr direction ++ ".")] }
    | some (.str "navigate") =>
      match lookupField fs "text" with
      | some url =>
        if truthy url then
          match callBrowser oracle acc (.navigate url) with
          | (acc2, .error e) => .exc acc2 e
          | (acc2, .ok _) =>
            .finished { acc2 with msgs := acc2.msgs ++
              [.str (step_msg ++ " Navigated to " ++ pyStr url ++ ".")] }
        else
          .finished { acc with msgs := acc.msgs ++ [.str step_msg] }
      | none => .finished { acc with msgs := acc.msgs ++ [.str step_msg] }
    | some (.str "read") =>
      match callBrowser oracle acc .get_text_content with
      | (acc2, .error e) => .exc acc2 e
      | (acc2, .ok text_content) =>
        .finished { acc2 with msgs := acc2.msgs ++
          [.str (step_msg ++ " Extracted Text: " ++ text_content.take 500 ++ "...")] }
    | some (.str "answer") =>
      .halted { acc with
        msgs := acc.msgs ++ [(lookupField fs "text").getD (.str "No answer provided.")],
        is_done := true }
    | some (.str "done") =>
      .halted { acc with msgs := acc.msgs ++ [.str "Task completed."], is_done := true }
    | _ => .finished { acc with msgs := acc.msgs ++ [.str step_msg] }
  | _ => .exc acc "AttributeError: object has no attribute get"

/-- The `for action_data in actions_data` loop: executes the batch in
order, stopping at the first `break` or exception. -/
def execActions (oracle : BrowserOracle) : List Json → ExecAcc → ExecOut
  | [], acc => .finished acc
  | a :: rest, acc =>
    match execOne oracle acc a with
    | .finished acc2 => execActions oracle rest acc2
    | .halted acc2 => .halted acc2
    | .exc acc2 e => .exc acc2 e

/-- Normalization of the parsed model response into a batch
(src/agent.py lines 114-118): an object becomes a one-element list, a list
is taken as is, anything else is rejected (`none`). -/
def normalizeActions : Json → Option (List Json)
  | .obj fs => some [.obj fs]
  | .arr xs => some xs
  | _ => none

/-- One history entry: (instruction, serialized action batch, result). -/
abbrev HistoryEntry := String × String × String

/-- Appending one entry to the history with the bound of
src/agent.py lines 185-188: append, then `pop(0)` when the length
exceeds 5. -/
def pushHistory (h : List HistoryEntry) (e : HistoryEntry) : List HistoryEntry :=
  let h2 := h ++ [e]
  if h2.length > 5 then h2.tail else h2

/-- The outcome of `json.loads(response.text)` on the model gateway call:
either the call itself raised (`fault`), or it returned `rawText` which
parsed (`some`) or failed to parse (`none`, the `json.JSONDecodeError`
case). -/
inductive ModelResponse where
  | fault (msg : String)
  | ok (rawText : String) (parsed : Option Json)

/-- Python truthiness of the `screenshot_bytes` argument: falsy when it is
`None` or the empty byte string. -/
def bytesTruthy : Option (List Nat) → Bool
  | none => false
  | some bs => !bs.isEmpty

/-- The value returned by one invocation of `analyze_and_act`, together
with the resulting history and the trace of browser operations
dispatched. -/
structure InvocationOut where
  result : String
  is_done : Bool
  history : List HistoryEntry
  ops : List BrowserOp

/-- The tail of `analyze_and_act` after the loop ends normally
(src/agent.py lines 182-190): join the messages (which can raise when the
`answer` text was not a string), append the history entry, trim the
history, return. -/
def finishInvocation (user_instruction : String) (history : List HistoryEntry)
    (actions_data : List Json) (acc : ExecAcc) : InvocationOut :=
  match pyJoin acc.msgs with
  | .error e => ⟨"Error communicating with Gemini: " ++ e, false, history, acc.ops⟩
  | .ok final_result =>
    ⟨final_result, acc.is_done,
      pushHistory history (user_instruction, Json.dumps (.arr actions_data), final_result),
      acc.ops⟩

/-- `Agent.analyze_and_act` (src/agent.py lines 69-193) as a pure function
of the current history, the arguments, the model-gateway outcome and the
browser behaviour.  The screenshot check precedes the `try` block; every
exception inside it (model fault, loop exception, join failure) is caught
and rendered as the `"Error communicating with Gemini: "` string with
`is_done = False` and the history untouched. -/
def analyze_and_act (oracle : BrowserOracle) (history : List HistoryEntry)
    (user_instruction : String) (screenshot_bytes : Option (List Nat))
    (resp : ModelResponse) : InvocationOut :=
  if bytesTruthy screenshot_bytes = false then
    ⟨"Error: No browser screenshot available. Did you navigate somewhere?", true, history, []⟩
  else
    match resp with
    | .fault e => ⟨"Error communicating with Gemini: " ++ e, false, history, []⟩
    | .ok response_text parsed =>
      match parsed with
      | none => ⟨"Error: Gemini returned invalid JSON: " ++ response_text, false, history, []⟩
      | some j =>
        match normalizeActions j with
        | none =>
          ⟨"Error: Gemini did not return a valid action array or object.", false, history, []⟩
        | some actions_data =>
          match execActions oracle actions_data ⟨[], [], false⟩ with
          | .exc acc e =>
            ⟨"Error communicating with Gemini: " ++ e, false, history, acc.ops⟩
          | .finished acc => finishInvocation user_instruction history actions_data acc
          | .halted acc => finishInvocation user_instruction history actions_data acc

/-- The state of `BrowserManager` (src/browser.py): the four handles, each
possibly `None`.  The handles themselves are opaque. -/
structure BrowserState where
  playwright : Option Unit
  browser : Option Unit
  context : Option Unit
  page : Option Unit

/-- `BrowserManager.start` (src/browser.py lines 11-23): a no-op when
playwright is already running, otherwise launches everything and opens a
page. -/
def BrowserState.start (st : BrowserState) : BrowserState :=
  if st.playwright.isSome then st
  else ⟨some (), some (), some (), some ()⟩

/-- `BrowserManager.navigate` (src/browser.py lines 39-47): starts the
browser when no page exists, then attempts `page.goto` (outcome given by
the `goto` oracle) inside a `try` that converts any exception into an
error string. -/
def BrowserManager.navigate (goto : String → Except String Unit) (st : BrowserState)
    (url : String) : BrowserState × String :=
  let st2 := if st.page.isNone then st.start else st
  match st2.page with
  | none =>
    (st2, "Error navigating to " ++ url ++ ": " ++
      "AttributeError: NoneType object has no attribute goto")
  | some _ =>
    match goto url with
    | .ok _ => (st2, "Navigated to " ++ url)
    | .error e => (st2, "Error navigating to " ++ url ++ ": " ++ e)

/-- `BrowserManager.click` (src/browser.py lines 66-71). -/
def BrowserManager.click (st : BrowserState) (x y : Int) : String :=
  match st.page with
  | none => "Browser not active"
  | some _ => "Clicked at (" ++ toString x ++ ", " ++ toString y ++ ")"

/-- `BrowserManager.type_text` (src/browser.py lines 73-78). -/
def BrowserManager.type_text (st : BrowserState) (text : String) : String :=
  match st.page with
  | none => "Browser not active"
  | some _ => "Typed: " ++ text

/-- `BrowserManager.press_key` (src/browser.py lines 91-96). -/
def BrowserManager.press_key (st : BrowserState) (key : String) : String :=
  match st.page with
  | none => "Browser not active"
  | some _ => "Pressed key: " ++ key

/-- `BrowserManager.scroll` (src/browser.py lines 107-118). -/
def BrowserManager.scroll (st : BrowserState) (direction : String) : String :=
  match st.page with
  | none => "Browser not active"
  | some _ =>
    if direction = "down" then "Scrolled down"
    else if direction = "up" then "Scrolled up"
    else "Invalid scroll direction"

/-- `BrowserManager.get_text_content` (src/browser.py lines 98-105): with a
page, returns the inner text (outcome given by the `inner_text` oracle),
converting an exception into an error string. -/
def BrowserManager.get_text_content (st : BrowserState)
    (inner_text : Except String String) : String :=
  match st.page with
  | none => "Browser not active"
  | some _ =>
    match inner_text with
    | .ok s => s
    | .error e => "Error extracting text: " ++ e

/-! ## Concrete material shared by witnesses and counterexamples -/

/-- A browser behaviour in which every operation succeeds and returns the
empty string. -/
def okOracle : BrowserOracle := fun _ => .ok ""

/-- A browser behaviour in which every operation raises an exception. -/
def badOracle : BrowserOracle := fun _ => .error "boom"

/-- A concrete `scroll` action element. -/
def scrollElem : Json := .obj [("action", .str "scroll")]

/-- A concrete terminal `answer` action element with text `"hi"`. -/
def answerHi : Json := .obj [("action", .str "answer"), ("text", .str "hi")]

/-- The history produced by running a sequence of empty-batch invocations
(each appending one entry) from an empty history, used to exhibit the
FIFO eviction concretely. -/
def historyAfter (instrs : List String) : List HistoryEntry :=
  instrs.foldl
    (fun h i => (analyze_and_act okOracle h i (some [1]) (.ok "[]" (some (.arr [])))).history)
    []

/-- Whether a browser operation is a text-typing operation. -/
def isTypeText : BrowserOp → Bool
  | .type_text _ => true
  | _ => false

/-- Whether a browser operation is a press of the Enter key. -/
def isEnterPress : BrowserOp → Bool
  | .press_key (.str "Enter") => true
  | _ => false

/-- The temporal property of C5 on a trace of browser operations: every
text-typing operation is immediately followed by an Enter key press (in
particular none is last), with no other operation interposed. -/
def enterFollows : List BrowserOp → Bool
  | [] => true
  | [op] => !isTypeText op
  | op :: op2 :: rest => (!isTypeText op || isEnterPress op2) && enterFollows (op2 :: rest)

/-! ## Claims -/

/-- C3: for every model response string that fails JSON parsing, the
invocation returns `is_done = false` with a result embedding the offending
raw text, dispatches no browser operation, and leaves the history
unchanged. -/
theorem C3_invalid_json_is_error_no_side_effects (oracle : BrowserOracle)
    (history : List HistoryEntry) (instr : String) (shot : Option (List Nat))
    (raw : String) (hshot : bytesTruthy shot = true) :
    analyze_and_act oracle history instr shot (.ok raw none) =
      ⟨"Error: Gemini returned invalid JSON: " ++ raw, false, history, []⟩ := by
  simp [analyze_and_act, hshot]

/-- Witness for C3 at the spec's own example `"{not json"`. -/
theorem C3_witness :
    analyze_and_act okOracle [] "go" (some [1]) (.ok "\x7bnot json" none) =
      ⟨"Error: Gemini returned invalid JSON: \x7bnot json", false, [], []⟩ :=
  C3_invalid_json_is_error_no_side_effects okOracle [] "go" (some [1]) "\x7bnot json" rfl

/-- C4: a model response parsing to a single JSON object behaves identically
to the same object wrapped as a one-element array: same browser operations
in the same order, same result string, same `is_done` flag (and the same
history, since the serialized batch is the normalized one). -/
theorem C4_object_normalizes_to_singleton_batch (oracle : BrowserOracle)
    (history : List HistoryEntry) (instr : String) (shot : Option (List Nat))
    (raw : String) (fs : List (String × Json)) :
    analyze_and_act oracle history instr shot (.ok raw (some (.obj fs))) =
      analyze_and_act oracle history instr shot (.ok raw (some (.arr [.obj fs]))) := rfl

/-- C9: empty or missing screenshot bytes short-circuit the invocation with
the fixed error string and `is_done = true`, no model call being modelled,
no browser operation, and the history unchanged. -/
theorem C9_missing_screenshot_short_circuit (oracle : BrowserOracle)
    (history : List HistoryEntry) (instr : String) (shot : Option (List Nat))
    (resp : ModelResponse) (hshot : bytesTruthy shot = false) :
    analyze_and_act oracle history instr shot resp =
      ⟨"Error: No browser screenshot available. Did you navigate somewhere?",
        true, history, []⟩ := by
  simp [analyze_and_act, hshot]

/-- Witness for C9 with a missing (`None`) screenshot. -/
theorem C9_witness :
    analyze_and_act okOracle [] "go" none (.ok "[]" (some (.arr []))) =
      ⟨"Error: No browser screenshot available. Did you navigate somewhere?",
        true, [], []⟩ :=
  C9_missing_screenshot_short_circuit okOracle [] "go" none (.ok "[]" (some (.arr []))) rfl

/-- C10: an empty JSON array response dispatches no browser operation and
returns the empty string with `is_done = false`, yet still appends the
history entry `(instruction, "[]", "")`. -/
theorem C10_empty_batch_appends_history (oracle : BrowserOracle)
    (history : List HistoryEntry) (instr : String) (shot : Option (List Nat))
    (raw : String) (hshot : bytesTruthy shot = true) :
    analyze_and_act oracle history instr shot (.ok raw (some (.arr []))) =
      ⟨"", false, pushHistory history (instr, "[]", ""), []⟩ := by
  simp [analyze_and_act, hshot, normalizeActions, execActions, finishInvocation,
    pyJoin, getStrs, Json.dumps, dumpsList, String.intercalate]

/-- Witness for C10: from an empty history the entry `("go", "[]", "")` is
recorded. -/
theorem C10_witness :
    analyze_and_act okOracle [] "go" (some [1]) (.ok "[]" (some (.arr []))) =
      ⟨"", false, [("go", "[]", "")], []⟩ :=
  C10_empty_batch_appends_history okOracle [] "go" (some [1]) "[]" rfl

/-! ## Structural lemmas about the loop and the history -/

/-- Decomposition of the loop over a concatenated batch: the tail only runs
when the front finished without `break` or exception. -/
theorem execActions_append (oracle : BrowserOracle) (xs ys : List Json) (acc : ExecAcc) :
    execActions oracle (xs ++ ys) acc =
      match execActions oracle xs acc with
      | .finished a => execActions oracle ys a
      | .halted a => .halted a
      | .exc a e => .exc a e := by
  induction xs generalizing acc with
  | nil => simp [execActions]
  | cons a rest ih =>
    simp only [List.cons_append, execActions]
    cases execOne oracle acc a with
    | finished a2 => exact ih a2
    | halted a2 => rfl
    | exc a2 e => rfl

/-- Every invocation either leaves the history untouched or pushes exactly
one entry through the bounded append. -/
theorem analyze_history_shape (oracle : BrowserOracle) (history : List HistoryEntry)
    (instr : String) (shot : Option (List Nat)) (resp : ModelResponse) :
    (analyze_and_act oracle history instr shot resp).history = history ∨
      ∃ e, (analyze_and_act oracle history instr shot resp).history = pushHistory history e := by
  unfold analyze_and_act finishInvocation
  repeat' split
  all_goals first
    | exact Or.inl rfl
    | exact Or.inr ⟨_, rfl⟩

/-- The bounded append never grows the history beyond 5 entries. -/
theorem pushHistory_length (h : List HistoryEntry) (e : HistoryEntry)
    (hlen : h.length ≤ 5) : (pushHistory h e).length ≤ 5 := by
  simp only [pushHistory]
  split
  · simp only [List.length_tail, List.length_append, List.length_singleton]
    omega
  · simp only [List.length_append, List.length_singleton] at *
    omega

/-- C2: the history never exceeds 5 entries; an invocation either leaves it
unchanged or appends exactly one entry at the end with FIFO eviction of
the oldest; concretely, after 6 successful invocations from an empty
history the 1st entry is gone and exactly the last 5 remain. -/
theorem C2_history_bounded_fifo (oracle : BrowserOracle) (history : List HistoryEntry)
    (instr : String) (shot : Option (List Nat)) (resp : ModelResponse)
    (h : history.length ≤ 5) :
    (analyze_and_act oracle history instr shot resp).history.length ≤ 5 ∧
    ((analyze_and_act oracle history instr shot resp).history = history ∨
      ∃ e, (analyze_and_act oracle history instr shot resp).history = pushHistory history e) ∧
    (historyAfter ["i1", "i2", "i3", "i4", "i5", "i6"] =
        [("i2", "[]", ""), ("i3", "[]", ""), ("i4", "[]", ""), ("i5", "[]", ""),
          ("i6", "[]", "")] ∧
      ("i1", "[]", "") ∉ historyAfter ["i1", "i2", "i3", "i4", "i5", "i6"]) := by
  refine ⟨?_, analyze_history_shape oracle history instr shot resp, by decide, by decide⟩
  rcases analyze_history_shape oracle history instr shot resp with heq | ⟨e, heq⟩
  · rw [heq]; exact h
  · rw [heq]; exact pushHistory_length history e h

/-- Witness for C2 at a concrete single invocation. -/
theorem C2_witness :
    (analyze_and_act okOracle [] "go" (some [1]) (.ok "[]" (some (.arr [])))).history.length ≤ 5 :=
  (C2_history_bounded_fifo okOracle [] "go" (some [1]) (.ok "[]" (some (.arr []))) (by decide)).1

/-- C7: every exception raised after the screenshot check — a model-gateway
fault, a Python exception escaping the action loop (including a browser
fault mid-batch), or the join of a non-string answer — is converted into
an error result with `is_done = false`, and no history entry is appended. -/
theorem C7_exceptions_caught_no_history (oracle : BrowserOracle)
    (history : List HistoryEntry) (instr : String) (shot : Option (List Nat))
    (hshot : bytesTruthy shot = true) :
    (∀ e, analyze_and_act oracle history instr shot (.fault e) =
        ⟨"Error communicating with Gemini: " ++ e, false, history, []⟩) ∧
    (∀ raw actions acc e, execActions oracle actions ⟨[], [], false⟩ = .exc acc e →
        analyze_and_act oracle history instr shot (.ok raw (some (.arr actions))) =
          ⟨"Error communicating with Gemini: " ++ e, false, history, acc.ops⟩) ∧
    (∀ raw actions acc e, execActions oracle actions ⟨[], [], false⟩ = .halted acc →
        pyJoin acc.msgs = .error e →
        analyze_and_act oracle history instr shot (.ok raw (some (.arr actions))) =
          ⟨"Error communicating with Gemini: " ++ e, false, history, acc.ops⟩) := by
  refine ⟨fun e => by simp [analyze_and_act, hshot], ?_, ?_⟩
  · intro raw actions acc e hexec
    simp [analyze_and_act, hshot, normalizeActions, hexec]
  · intro raw actions acc e hexec hjoin
    simp [analyze_and_act, hshot, normalizeActions, hexec, finishInvocation, hjoin]

/-- Witness for C7: a gateway fault, a browser fault mid-batch, and a
non-string answer text are each returned as error strings with the history
unchanged. -/
theorem C7_witness :
    (analyze_and_act badOracle [] "go" (some [1]) (.fault "boom") =
      ⟨"Error communicating with Gemini: boom", false, [], []⟩) ∧
    (analyze_and_act badOracle [] "go" (some [1]) (.ok "x" (some (.arr [scrollElem]))) =
      ⟨"Error communicating with Gemini: boom", false, [],
        [.scroll (.str "down")]⟩) ∧
    (analyze_and_act okOracle [] "go" (some [1])
        (.ok "x" (some (.arr [.obj [("action", .str "answer"), ("text", .num 5)]]))) =
      ⟨"Error communicating with Gemini: TypeError: sequence item: expected str instance",
        false, [], []⟩) :=
  ⟨(C7_exceptions_caught_no_history badOracle [] "go" (some [1]) rfl).1 "boom",
   (C7_exceptions_caught_no_history badOracle [] "go" (some [1]) rfl).2.1 "x" [scrollElem]
     ⟨[.scroll (.str "down")], [], false⟩ "boom" rfl,
   (C7_exceptions_caught_no_history okOracle [] "go" (some [1]) rfl).2.2 "x"
     [.obj [("action", .str "answer"), ("text", .num 5)]]
     ⟨[], [.num 5], true⟩ "TypeError: sequence item: expected str instance" rfl rfl⟩

/-- An `answer` element replaces its own log line with the `text` payload
(defaulted), sets `is_done`, dispatches nothing, and breaks the loop. -/
theorem execOne_answer (oracle : BrowserOracle) (acc : ExecAcc)
    (fs : List (String × Json)) (h : lookupField fs "action" = some (.str "answer")) :
    execOne oracle acc (.obj fs) =
      .halted { acc with
        msgs := acc.msgs ++ [(lookupField fs "text").getD (.str "No answer provided.")],
        is_done := true } := by
  simp only [execOne, h]

/-- A `done` element logs the fixed line, sets `is_done`, dispatches
nothing, and breaks the loop. -/
theorem execOne_done (oracle : BrowserOracle) (acc : ExecAcc)
    (fs : List (String × Json)) (h : lookupField fs "action" = some (.str "done")) :
    execOne oracle acc (.obj fs) =
      .halted { acc with msgs := acc.msgs ++ [.str "Task completed."], is_done := true } := by
  simp only [execOne, h]

/-- Appending one string item to an all-string message list. -/
theorem getStrs_append_str (xs : List Json) (ss : List String) (s : String)
    (h : getStrs xs = some ss) : getStrs (xs ++ [.str s]) = some (ss ++ [s]) := by
  induction xs generalizing ss with
  | nil =>
    simp only [getStrs, Option.some.injEq] at h
    subst h
    simp [getStrs]
  | cons x rest ih =>
    cases x with
    | str t =>
      simp only [getStrs] at h
      cases hr : getStrs rest with
      | none => rw [hr] at h; simp at h
      | some ss2 =>
        rw [hr] at h
        simp at h
        subst h
        simp [getStrs, ih ss2 hr]
    | null => simp [getStrs] at h
    | bool b => simp [getStrs] at h
    | num n => simp [getStrs] at h
    | arr es => simp [getStrs] at h
    | obj gs => simp [getStrs] at h

/-- C1 is false as stated: with the batch `[scroll, answer "hi"]` the
result summary is the scroll log line followed by `"hi"`, not the log
line of the terminal element alone (the loop keeps all accumulated lines
and the `answer` branch only replaces its own line). -/
theorem C1_counterexample :
    (analyze_and_act okOracle [] "go" (some [1])
        (.ok "x" (some (.arr [scrollElem, answerHi])))).result =
      "Action: scroll.  Scrolled down.\nhi" ∧
    (analyze_and_act okOracle [] "go" (some [1])
        (.ok "x" (some (.arr [scrollElem, answerHi])))).result ≠ "hi" ∧
    (analyze_and_act okOracle [] "go" (some [1])
        (.ok "x" (some (.arr [scrollElem, answerHi])))).is_done = true :=
  ⟨rfl, by decide, rfl⟩

/-- C1 amended: when the k-th element is terminal (`answer` with a string
or absent `text`, or `done`), browser operations are dispatched only for
elements 1..k (the terminal element itself dispatching none), elements
k+1..N are never dispatched, `is_done = true`, and the result summary is
the newline-join of the log lines of elements 1..k, ending with the
terminal element's line. -/
theorem C1_terminal_halts_batch (oracle : BrowserOracle) (history : List HistoryEntry)
    (instr : String) (shot : Option (List Nat)) (raw : String)
    (pre post : List Json) (fs : List (String × Json)) (acc : ExecAcc)
    (ss : List String) (s : String)
    (hshot : bytesTruthy shot = true)
    (hpre : execActions oracle pre ⟨[], [], false⟩ = .finished acc)
    (hss : getStrs acc.msgs = some ss)
    (hterm : (lookupField fs "action" = some (.str "answer") ∧
              (lookupField fs "text").getD (.str "No answer provided.") = .str s) ∨
             (lookupField fs "action" = some (.str "done") ∧ s = "Task completed.")) :
    analyze_and_act oracle history instr shot
        (.ok raw (some (.arr (pre ++ .obj fs :: post)))) =
      ⟨String.intercalate "\n" (ss ++ [s]), true,
       pushHistory history
         (instr, Json.dumps (.arr (pre ++ .obj fs :: post)),
           String.intercalate "\n" (ss ++ [s])),
       acc.ops⟩ := by
  have hone : execOne oracle acc (.obj fs) =
      .halted { acc with msgs := acc.msgs ++ [.str s], is_done := true } := by
    rcases hterm with ⟨ha, ht⟩ | ⟨ha, hs2⟩
    · rw [execOne_answer oracle acc fs ha, ht]
    · subst hs2; exact execOne_done oracle acc fs ha
  have hexec : execActions oracle (pre ++ .obj fs :: post) ⟨[], [], false⟩ =
      .halted { acc with msgs := acc.msgs ++ [.str s], is_done := true } := by
    rw [execActions_append oracle pre (.obj fs :: post) ⟨[], [], false⟩, hpre]
    show execActions oracle (.obj fs :: post) acc = _
    simp only [execActions, hone]
  simp [analyze_and_act, hshot, normalizeActions, hexec, finishInvocation, pyJoin,
    getStrs_append_str acc.msgs ss s hss]

/-- Witness for the amended C1: a scroll, then `answer "hi"`, then a
trailing scroll that is never dispatched. -/
theorem C1_witness :
    analyze_and_act okOracle [] "go" (some [1])
        (.ok "x" (some (.arr ([scrollElem] ++
          .obj [("action", .str "answer"), ("text", .str "hi")] :: [scrollElem])))) =
      ⟨String.intercalate "\n" (["Action: scroll.  Scrolled down."] ++ ["hi"]), true,
       pushHistory []
         ("go", Json.dumps (.arr ([scrollElem] ++
            .obj [("action", .str "answer"), ("text", .str "hi")] :: [scrollElem])),
           String.intercalate "\n" (["Action: scroll.  Scrolled down."] ++ ["hi"])),
       [.scroll (.str "down")]⟩ :=
  C1_terminal_halts_batch okOracle [] "go" (some [1]) "x" [scrollElem] [scrollElem]
    [("action", .str "answer"), ("text", .str "hi")]
    ⟨[.scroll (.str "down")], [.str "Action: scroll.  Scrolled down."], false⟩
    ["Action: scroll.  Scrolled down."] "hi" rfl rfl rfl (Or.inl ⟨rfl, rfl⟩)

/-- C6 is false as stated: a `click` element whose `coordinates` hold two
non-numeric values passes the length-2 check — the code never checks
numericity — so the click IS dispatched (with the raw values) and the
log line reports a click, not invalid coordinates. -/
theorem C6_counterexample :
    (analyze_and_act okOracle [] "go" (some [1])
        (.ok "x" (some (.arr [.obj [("action", .str "click"),
          ("coordinates", .arr [.str "a", .str "b"])]])))).ops =
      [.click (.str "a") (.str "b")] ∧
    (analyze_and_act okOracle [] "go" (some [1])
        (.ok "x" (some (.arr [.obj [("action", .str "click"),
          ("coordinates", .arr [.str "a", .str "b"])]])))).result =
      "Action: click.  Clicked at [\x27a\x27, \x27b\x27]." :=
  ⟨rfl, rfl⟩

/-- C6 amended: a `click` element whose `coordinates` field is absent,
falsy, or has a length other than 2 produces the invalid-coordinates log
line, dispatches no browser operation, and the loop continues with the
remaining elements.  (A length-2 value is clicked regardless of whether
its items are numeric.) -/
theorem C6_invalid_coordinates (oracle : BrowserOracle) (acc : ExecAcc)
    (rest : List Json) (fs : List (String × Json))
    (hclick : lookupField fs "action" = some (.str "click"))
    (hbad : lookupField fs "coordinates" = none
      ∨ (∃ c, lookupField fs "coordinates" = some c ∧ truthy c = false)
      ∨ (∃ c n, lookupField fs "coordinates" = some c ∧ truthy c = true ∧
          pyLen c = some n ∧ n ≠ 2)) :
    execActions oracle (.obj fs :: rest) acc =
      execActions oracle rest
        { acc with msgs := acc.msgs ++ [.str "Error: Invalid coordinates for click."] } := by
  have hone : execOne oracle acc (.obj fs) =
      .finished { acc with
        msgs := acc.msgs ++ [.str "Error: Invalid coordinates for click."] } := by
    rcases hbad with hnone | ⟨c, hc, hf⟩ | ⟨c, n, hc, ht, hl, hn⟩
    · simp [execOne, hclick, hnone]
    · simp [execOne, hclick, hc, hf]
    · simp [execOne, hclick, hc, ht, hl, hn]
  simp only [execActions, hone]

/-- Witness for the amended C6: three numeric coordinates are rejected
without a click and the batch goes on. -/
theorem C6_witness :
    execActions okOracle [.obj [("action", .str "click"),
        ("coordinates", .arr [.num 1, .num 2, .num 3])]] ⟨[], [], false⟩ =
      execActions okOracle [] ⟨[], [.str "Error: Invalid coordinates for click."], false⟩ :=
  C6_invalid_coordinates okOracle ⟨[], [], false⟩ []
    [("action", .str "click"), ("coordinates", .arr [.num 1, .num 2, .num 3])]
    rfl
    (Or.inr (Or.inr ⟨.arr [.num 1, .num 2, .num 3], 3, rfl, rfl, rfl, by decide⟩))

/-- C8 is false as stated for `navigate`: with no active page it starts a
fresh browser session and navigates instead of returning
`"Browser not active"`. -/
theorem C8_counterexample :
    (BrowserManager.navigate (fun _ => .ok ()) ⟨none, none, none, none⟩
        "https://example.com").2 = "Navigated to https://example.com" ∧
    (BrowserManager.navigate (fun _ => .ok ()) ⟨none, none, none, none⟩
        "https://example.com").2 ≠ "Browser not active" :=
  ⟨rfl, by decide⟩

/-- C8 amended: with no active page session, `click`, `type_text`,
`press_key`, `scroll` and `get_text_content` each return the string
`"Browser not active"` instead of raising; `navigate` is the exception —
it starts a session and returns either a navigation success or a
navigation error string, never `"Browser not active"`. -/
theorem C8_no_page_reports_not_active (st : BrowserState) (h : st.page = none) :
    (∀ x y, BrowserManager.click st x y = "Browser not active") ∧
    (∀ t, BrowserManager.type_text st t = "Browser not active") ∧
    (∀ k, BrowserManager.press_key st k = "Browser not active") ∧
    (∀ d, BrowserManager.scroll st d = "Browser not active") ∧
    (∀ it, BrowserManager.get_text_content st it = "Browser not active") ∧
    (∀ goto url, (BrowserManager.navigate goto st url).2 = "Navigated to " ++ url ∨
      ∃ e, (BrowserManager.navigate goto st url).2 =
        "Error navigating to " ++ url ++ ": " ++ e) := by
  refine ⟨fun x y => by simp [BrowserManager.click, h],
    fun t => by simp [BrowserManager.type_text, h],
    fun k => by simp [BrowserManager.press_key, h],
    fun d => by simp [BrowserManager.scroll, h],
    fun it => by simp [BrowserManager.get_text_content, h],
    fun goto url => ?_⟩
  unfold BrowserManager.navigate
  rw [h]
  simp only [Option.isNone_none, if_true]
  unfold BrowserState.start
  by_cases hp : st.playwright.isSome
  · rw [if_pos hp, h]
    exact Or.inr ⟨_, rfl⟩
  · rw [if_neg hp]
    cases hg : goto url with
    | ok u => left; simp [hg]
    | error e => right; exact ⟨e, by simp [hg]⟩

/-- Witness for the amended C8 at the empty browser state. -/
theorem C8_witness :
    BrowserManager.click ⟨none, none, none, none⟩ 3 4 = "Browser not active" :=
  (C8_no_page_reports_not_active ⟨none, none, none, none⟩ rfl).1 3 4

/-- Concatenation preserves the type-then-Enter property (a good trace
never ends in a text-typing operation, so no new adjacency is created). -/
theorem enterFollows_append (xs ys : List BrowserOp)
    (hx : enterFollows xs = true) (hy : enterFollows ys = true) :
    enterFollows (xs ++ ys) = true := by
  induction xs with
  | nil => simpa
  | cons op rest ih =>
    cases rest with
    | nil =>
      cases ys with
      | nil => simpa using hx
      | cons y ys2 =>
        have h1 : isTypeText op = false := by simpa [enterFollows] using hx
        simp only [List.cons_append, List.nil_append, enterFollows, h1,
          Bool.not_false, Bool.true_or, Bool.true_and]
        exact hy
    | cons op2 rest2 =>
      simp only [enterFollows, Bool.and_eq_true] at hx
      simp only [List.cons_append, enterFollows, Bool.and_eq_true]
      exact ⟨hx.1, by simpa using ih hx.2⟩

/-- Appending one operation that is not a text-typing operation preserves
the property. -/
theorem enterFollows_snoc (xs : List BrowserOp) (op : BrowserOp)
    (hx : enterFollows xs = true) (hop : isTypeText op = false) :
    enterFollows (xs ++ [op]) = true :=
  enterFollows_append xs [op] hx (by simp [enterFollows, hop])

/-- Appending a text-typing operation immediately followed by an Enter
press preserves the property. -/
theorem enterFollows_snoc_type_enter (xs : List BrowserOp) (t : Json)
    (hx : enterFollows xs = true) :
    enterFollows (xs ++ [.type_text t, .press_key (.str "Enter")]) = true :=
  enterFollows_append xs [.type_text t, .press_key (.str "Enter")] hx
    (by simp [enterFollows, isTypeText, isEnterPress])

/-- When no browser call raises, one loop iteration preserves the
type-then-Enter property of the dispatched trace. -/
theorem execOne_enterFollows (oracle : BrowserOracle)
    (hok : ∀ op, ∃ s, oracle op = .ok s) (acc : ExecAcc) (a : Json)
    (h : enterFollows acc.ops = true) :
    enterFollows (execOne oracle acc a).acc.ops = true := by
  obtain ⟨f, hf⟩ : ∃ f : BrowserOp → String, ∀ op, oracle op = .ok (f op) :=
    ⟨fun op => (hok op).choose, fun op => (hok op).choose_spec⟩
  have hfe : oracle = fun op => .ok (f op) := funext hf
  subst hfe
  cases a with
  | obj fs =>
    simp only [execOne, callBrowser]
    repeat' split
    all_goals first
      | exact h
      | exact enterFollows_snoc _ _ h rfl
      | (rw [List.append_assoc]; exact enterFollows_snoc_type_enter _ _ h)
  | null => exact h
  | bool b => exact h
  | num n => exact h
  | str s => exact h
  | arr es => exact h

/-- When no browser call raises, the whole loop preserves the
type-then-Enter property of the dispatched trace. -/
theorem execActions_enterFollows (oracle : BrowserOracle)
    (hok : ∀ op, ∃ s, oracle op = .ok s) (actions : List Json) (acc : ExecAcc)
    (h : enterFollows acc.ops = true) :
    enterFollows (execActions oracle actions acc).acc.ops = true := by
  induction actions generalizing acc with
  | nil => exact h
  | cons a rest ih =>
    have h1 := execOne_enterFollows oracle hok acc a h
    rw [execActions]
    cases hx : execOne oracle acc a with
    | finished a2 => rw [hx] at h1; exact ih a2 h1
    | halted a2 => rw [hx] at h1; exact h1
    | exc a2 e => rw [hx] at h1; exact h1

/-- The operations recorded by the invocation tail are those of the loop
accumulator, on both join outcomes. -/
theorem finishInvocation_ops (instr : String) (history : List HistoryEntry)
    (actions : List Json) (acc : ExecAcc) :
    (finishInvocation instr history actions acc).ops = acc.ops := by
  unfold finishInvocation
  split <;> rfl

/-- C5: when the browser collaborator raises no exception, (i) in the trace
of every invocation each text-typing operation is immediately followed by
an Enter key press with no other operation interposed; (ii) an executed
`type` element with truthy `text` dispatches exactly the typing operation
immediately followed by the Enter press; (iii) a `type` element with
absent `text` dispatches nothing and logs its plain action line (no
error). -/
theorem C5_type_followed_by_enter (oracle : BrowserOracle)
    (hok : ∀ op, ∃ s, oracle op = .ok s) :
    (∀ history instr shot resp,
        enterFollows (analyze_and_act oracle history instr shot resp).ops = true) ∧
    (∀ (acc : ExecAcc) (fs : List (String × Json)) (t : Json),
        lookupField fs "action" = some (.str "type") →
        lookupField fs "text" = some t → truthy t = true →
        execOne oracle acc (.obj fs) =
          .finished ⟨acc.ops ++ [.type_text t, .press_key (.str "Enter")],
            acc.msgs ++ [.str ("Action: type. " ++
              pyStr ((lookupField fs "reasoning").getD (.str "")) ++
              " Typed \x27" ++ pyStr t ++ "\x27." ++ " (Auto-pressed Enter to submit).")],
            acc.is_done⟩) ∧
    (∀ (acc : ExecAcc) (fs : List (String × Json)),
        lookupField fs "action" = some (.str "type") →
        lookupField fs "text" = none →
        execOne oracle acc (.obj fs) =
          .finished ⟨acc.ops,
            acc.msgs ++ [.str ("Action: type. " ++
              pyStr ((lookupField fs "reasoning").getD (.str "")))],
            acc.is_done⟩) := by
  refine ⟨?_, ?_, ?_⟩
  · intro history instr shot resp
    cases hb : bytesTruthy shot with
    | false => simp [analyze_and_act, hb, enterFollows]
    | true =>
      cases resp with
      | fault e => simp [analyze_and_act, hb, enterFollows]
      | ok raw parsed =>
        cases parsed with
        | none => simp [analyze_and_act, hb, enterFollows]
        | some j =>
          cases hn : normalizeActions j with
          | none => simp [analyze_and_act, hb, hn, enterFollows]
          | some actions =>
            have hgood := execActions_enterFollows oracle hok actions ⟨[], [], false⟩ rfl
            cases hx : execActions oracle actions ⟨[], [], false⟩ with
            | exc acc e =>
              rw [hx] at hgood
              simpa [analyze_and_act, hb, hn, hx] using hgood
            | finished acc =>
              rw [hx] at hgood
              simpa [analyze_and_act, hb, hn, hx, finishInvocation_ops] using hgood
            | halted acc =>
              rw [hx] at hgood
              simpa [analyze_and_act, hb, hn, hx, finishInvocation_ops] using hgood
  · intro acc fs t ha ht htr
    obtain ⟨s1, hs1⟩ := hok (.type_text t)
    obtain ⟨s2, hs2⟩ := hok (.press_key (.str "Enter"))
    simp only [execOne, callBrowser, ha, ht, htr, if_true, hs1, hs2]
    rw [List.append_assoc]
    rfl
  · intro acc fs ha ht
    simp only [execOne, callBrowser, ha, ht]
    rfl

/-- Witness for C5 at a concrete `type` invocation. -/
theorem C5_witness :
    enterFollows (analyze_and_act okOracle [] "go" (some [1])
        (.ok "x" (some (.arr [.obj [("action", .str "type"),
          ("text", .str "cats")]])))).ops = true :=
  (C5_type_followed_by_enter okOracle (fun _ => ⟨"", rfl⟩)).1 [] "go" (some [1])
    (.ok "x" (some (.arr [.obj [("action", .str "type"), ("text", .str "cats")]])))

end OpenClaw
